import Mathlib

/-!
Verification of the calculator service (`app/operations.py` and `main.py`).

Numbers are modelled as real numbers: the service computes with Python
ints/floats, and the spec treats both as one numeric representation.  In ℝ
there is a single zero, so integer `0`, float `0.0` and `-0.0` — which are
all `== 0` in Python — are one value.  Floating-point rounding and overflow
are idealised away; value-level partiality of the host's operators is kept.

Fallible Python code is embedded as `Except PyExc ℝ`, where `PyExc`
distinguishes the exception classes the handlers in `main.py` dispatch on:
`ValueError` (raised explicitly by `divide` and `square_root`) versus
`ZeroDivisionError` (raised by the host's `/` on a zero divisor and by `**`
on a zero base with negative exponent; not a subclass of `ValueError`, so
an `except ValueError` clause does not catch it).
-/

/-- Python exception value: the class that `except` clauses dispatch on,
and the message `str(e)` carries. -/
inductive PyExc
| valueError (msg : String)
| zeroDivisionError (msg : String)
deriving DecidableEq

/-- Message of an exception, as Python's `str(e)`. -/
def PyExc.msg : PyExc → String
| .valueError m => m
| .zeroDivisionError m => m

namespace Operations

/-- Host semantics of Python's true division `a / b`: raises
`ZeroDivisionError` when the divisor equals zero, otherwise the quotient. -/
noncomputable def pyDiv (a b : ℝ) : Except PyExc ℝ :=
  if b = 0 then .error (.zeroDivisionError "division by zero")
  else .ok (a / b)

/-- Host semantics of Python's exponentiation `a ** b`: raising zero to a
negative power raises `ZeroDivisionError`; otherwise real exponentiation
(`Real.rpow`; for a negative base with fractional exponent the host returns
a complex value, outside this real-valued model but still a normal return). -/
noncomputable def pyPow (a b : ℝ) : Except PyExc ℝ :=
  if a = 0 ∧ b < 0 then
    .error (.zeroDivisionError "0.0 cannot be raised to a negative power")
  else .ok (a ^ b)

/-- From `operations.py` line 13: `add` returns `a + b`. -/
def add (a b : ℝ) : ℝ := a + b

/-- From `operations.py` line 30: `subtract` returns `a - b`. -/
def subtract (a b : ℝ) : ℝ := a - b

/-- From `operations.py` line 47: `multiply` returns `a * b`. -/
def multiply (a b : ℝ) : ℝ := a * b

/-- From `operations.py` line 64: `divide` raises
`ValueError("Cannot divide by zero")` when `b == 0`, otherwise `a / b`. -/
noncomputable def divide (a b : ℝ) : Except PyExc ℝ :=
  if b = 0 then .error (.valueError "Cannot divide by zero")
  else pyDiv a b

/-- From `operations.py` line 89: `power` returns `a ** b`. -/
noncomputable def power (a b : ℝ) : Except PyExc ℝ := pyPow a b

/-- From `operations.py` line 106: `square_root` raises
`ValueError("Cannot calculate square root of negative number")` when
`a < 0`, otherwise `a ** 0.5`. -/
noncomputable def square_root (a : ℝ) : Except PyExc ℝ :=
  if a < 0 then
    .error (.valueError "Cannot calculate square root of negative number")
  else pyPow a 0.5

/-- From `operations.py` line 130: `percentage` returns `(a * b) / 100`. -/
noncomputable def percentage (a b : ℝ) : ℝ := a * b / 100

end Operations

namespace Main

/-- What a handler in `main.py` sends back: either HTTP 200 with the
`CalculationResponse` envelope `{result, operation, operands}` (operands is
the echo mapping operand names to the values supplied by the caller), or an
`HTTPException` with a status code and a `detail` string. -/
inductive ApiResponse
| success (result : ℝ) (operation : String) (operands : List (String × ℝ))
| failure (status : Nat) (detail : String)

/-- HTTP status code of a response; a success envelope is sent as 200 OK. -/
def ApiResponse.status : ApiResponse → Nat
| .success _ _ _ => 200
| .failure s _ => s

/-- Except clauses of `api_divide` (lines 171-176) and `api_square_root`
(lines 223-228): `except ValueError` re-raises 400 with `str(e)`; the
following `except Exception` maps everything else to 500
"Internal server error". -/
def domainCatch (e : PyExc) : ApiResponse :=
  match e with
  | .valueError m => .failure 400 m
  | _ => .failure 500 "Internal server error"

/-- Except clause of the other five handlers (e.g. `api_add` lines 96-98):
a single `except Exception` mapping every failure to 400 with `str(e)`. -/
def genericCatch (e : PyExc) : ApiResponse := .failure 400 e.msg

/-- Body of a handler's `try` block: a normal result is wrapped in the
success envelope with the given canonical operation name and operand echo;
an exception falls through to the handler's except clauses. -/
def runHandler (operation : String) (operands : List (String × ℝ))
    (onExc : PyExc → ApiResponse) (res : Except PyExc ℝ) : ApiResponse :=
  match res with
  | .ok v => .success v operation operands
  | .error e => onExc e

/-- From `main.py` line 77: POST `/api/add`. -/
def api_add (a b : ℝ) : ApiResponse :=
  runHandler "addition" [("a", a), ("b", b)] genericCatch
    (.ok (Operations.add a b))

/-- From `main.py` line 101: POST `/api/subtract`. -/
def api_subtract (a b : ℝ) : ApiResponse :=
  runHandler "subtraction" [("a", a), ("b", b)] genericCatch
    (.ok (Operations.subtract a b))

/-- From `main.py` line 125: POST `/api/multiply`. -/
def api_multiply (a b : ℝ) : ApiResponse :=
  runHandler "multiplication" [("a", a), ("b", b)] genericCatch
    (.ok (Operations.multiply a b))

/-- From `main.py` line 149: POST `/api/divide`. -/
noncomputable def api_divide (a b : ℝ) : ApiResponse :=
  runHandler "division" [("a", a), ("b", b)] domainCatch
    (Operations.divide a b)

/-- From `main.py` line 179: POST `/api/power`. -/
noncomputable def api_power (a b : ℝ) : ApiResponse :=
  runHandler "power" [("a", a), ("b", b)] genericCatch
    (Operations.power a b)

/-- From `main.py` line 203: POST `/api/square-root`. -/
noncomputable def api_square_root (a : ℝ) : ApiResponse :=
  runHandler "square_root" [("a", a)] domainCatch
    (Operations.square_root a)

/-- From `main.py` line 231: POST `/api/percentage`. -/
noncomputable def api_percentage (a b : ℝ) : ApiResponse :=
  runHandler "percentage" [("a", a), ("b", b)] genericCatch
    (.ok (Operations.percentage a b))

end Main

namespace Operations

/-- Unfolding lemma: division with a nonzero divisor succeeds with `a / b`. -/
theorem divide_ok (a b : ℝ) (h : b ≠ 0) : divide a b = .ok (a / b) := by
  rw [divide, if_neg h, pyDiv, if_neg h]

/-- Unfolding lemma: division by zero fails with the domain message. -/
theorem divide_zero (a b : ℝ) (h : b = 0) :
    divide a b = .error (.valueError "Cannot divide by zero") := by
  rw [divide, if_pos h]

/-- Unfolding lemma: `a ** b` returns normally unless the base is zero and
the exponent negative. -/
theorem pyPow_ok (a b : ℝ) (h : ¬ (a = 0 ∧ b < 0)) : pyPow a b = .ok (a ^ b) := by
  rw [pyPow, if_neg h]

/-- Unfolding lemma for `power` in terms of real exponentiation. -/
theorem power_ok (a b : ℝ) (h : ¬ (a = 0 ∧ b < 0)) : power a b = .ok (a ^ b) :=
  pyPow_ok a b h

/-- Unfolding lemma: square root of a nonnegative number succeeds, and the
value `a ** 0.5` is the real square root. -/
theorem square_root_ok (a : ℝ) (h : 0 ≤ a) : square_root a = .ok (Real.sqrt a) := by
  rw [square_root, if_neg (not_lt.mpr h),
    pyPow_ok a 0.5 (by rintro ⟨-, h2⟩; norm_num at h2)]
  rw [show (0.5 : ℝ) = 1 / 2 by norm_num, ← Real.sqrt_eq_rpow]

/-- Unfolding lemma: square root of a negative number fails with the
domain message. -/
theorem square_root_neg (a : ℝ) (h : a < 0) :
    square_root a =
      .error (.valueError "Cannot calculate square root of negative number") := by
  rw [square_root, if_pos h]

end Operations

/-- C1: for every pair of real operands, `divide a b` returns the quotient
`a / b` when `b ≠ 0`, and fails with exactly "Cannot divide by zero" when
`b = 0`, for every `a` including `a = 0`.  In the real-number model the
integer zero, the floating-point zero and `-0` are the single value `0`,
and the guard is numeric equality with it. -/
theorem c1_divide_domain (a b : ℝ) :
    (b ≠ 0 → Operations.divide a b = .ok (a / b)) ∧
    (b = 0 → Operations.divide a b =
      .error (.valueError "Cannot divide by zero")) :=
  ⟨Operations.divide_ok a b, Operations.divide_zero a b⟩

/-- C1 witness: concrete instances of both branches. -/
theorem c1_divide_domain_witness :
    Operations.divide 6 3 = .ok ((6 : ℝ) / 3) ∧
    Operations.divide 0 0 = .error (.valueError "Cannot divide by zero") :=
  ⟨(c1_divide_domain 6 3).1 (by norm_num), (c1_divide_domain 0 0).2 rfl⟩

/-- C2: for `0 ≤ a` (zero included) `square_root a` succeeds with the
nonnegative real root, whose square is exactly `a`; for `a < 0` it fails
with exactly "Cannot calculate square root of negative number". -/
theorem c2_square_root_domain (a : ℝ) :
    (0 ≤ a → Operations.square_root a = .ok (Real.sqrt a) ∧
      0 ≤ Real.sqrt a ∧ Real.sqrt a ^ 2 = a) ∧
    (a < 0 → Operations.square_root a =
      .error (.valueError "Cannot calculate square root of negative number")) :=
  ⟨fun h => ⟨Operations.square_root_ok a h, Real.sqrt_nonneg a, Real.sq_sqrt h⟩,
   Operations.square_root_neg a⟩

/-- C2 witness: concrete instances of both branches. -/
theorem c2_square_root_domain_witness :
    Operations.square_root 4 = .ok (Real.sqrt 4) ∧ Real.sqrt 4 ^ 2 = 4 ∧
    Operations.square_root (-4) =
      .error (.valueError "Cannot calculate square root of negative number") :=
  ⟨((c2_square_root_domain 4).1 (by norm_num)).1,
   ((c2_square_root_domain 4).1 (by norm_num)).2.2,
   (c2_square_root_domain (-4)).2 (by norm_num)⟩


/-- C3: the except clauses of the divide and square-root handlers send a
`ValueError` (the recognized domain-error kind, the only exception those
operations raise for their domain violations) to HTTP 400 with its message,
and every other exception to HTTP 500 with the generic
"Internal server error"; the other five handlers use the single generic
clause sending every exception to HTTP 400 with its raw message.  The
equations on the handlers record which clause set each one installs, and
the final implication shows a non-domain failure of `power` surfacing as
400 with raw text. -/
theorem c3_exception_mapping (m : String) (e : PyExc) (a b : ℝ) :
    Main.domainCatch (.valueError m) = .failure 400 m ∧
    Main.domainCatch (.zeroDivisionError m) =
      .failure 500 "Internal server error" ∧
    Main.genericCatch e = .failure 400 e.msg ∧
    Main.api_divide a b = Main.runHandler "division" [("a", a), ("b", b)]
      Main.domainCatch (Operations.divide a b) ∧
    Main.api_square_root a = Main.runHandler "square_root" [("a", a)]
      Main.domainCatch (Operations.square_root a) ∧
    Main.api_add a b = Main.runHandler "addition" [("a", a), ("b", b)]
      Main.genericCatch (.ok (Operations.add a b)) ∧
    Main.api_subtract a b = Main.runHandler "subtraction" [("a", a), ("b", b)]
      Main.genericCatch (.ok (Operations.subtract a b)) ∧
    Main.api_multiply a b = Main.runHandler "multiplication" [("a", a), ("b", b)]
      Main.genericCatch (.ok (Operations.multiply a b)) ∧
    Main.api_percentage a b = Main.runHandler "percentage" [("a", a), ("b", b)]
      Main.genericCatch (.ok (Operations.percentage a b)) ∧
    Main.api_power a b = Main.runHandler "power" [("a", a), ("b", b)]
      Main.genericCatch (Operations.power a b) ∧
    (a = 0 → b < 0 → Main.api_power a b =
      .failure 400 "0.0 cannot be raised to a negative power") := by
  refine ⟨rfl, rfl, rfl, rfl, rfl, rfl, rfl, rfl, rfl, rfl, ?_⟩
  intro ha hb
  rw [Main.api_power, Operations.power, Operations.pyPow, if_pos ⟨ha, hb⟩]
  rfl

/-- C3 witness: the power handler surfaces its one real (non-domain)
failure as HTTP 400 with the raw exception text. -/
theorem c3_exception_mapping_witness :
    Main.api_power 0 (-1) =
      .failure 400 "0.0 cannot be raised to a negative power" :=
  (c3_exception_mapping "" (.valueError "") 0
    (-1)).2.2.2.2.2.2.2.2.2.2 rfl (by norm_num)

/-- C4: `power a 0` succeeds with 1 for every `a` including `a = 0`
(so `power 0 0` yields 1), and `power 0 b` succeeds with 0 for `b > 0`. -/
theorem c4_power_zero_conventions (a b : ℝ) :
    Operations.power a 0 = .ok 1 ∧
    (0 < b → Operations.power 0 b = .ok 0) := by
  constructor
  · rw [Operations.power_ok a 0 (by rintro ⟨-, h⟩; exact absurd h (lt_irrefl 0)),
      Real.rpow_zero]
  · intro hb
    rw [Operations.power_ok 0 b
        (by rintro ⟨-, h⟩; exact absurd hb (not_lt.mpr h.le)),
      Real.zero_rpow (ne_of_gt hb)]

/-- C4 witness: `power 0 0 = 1` and `power 0 3 = 0` concretely. -/
theorem c4_power_zero_conventions_witness :
    Operations.power 0 0 = .ok 1 ∧ Operations.power 0 3 = .ok 0 :=
  ⟨(c4_power_zero_conventions 0 0).1,
   (c4_power_zero_conventions 0 3).2 (by norm_num)⟩

/-- C5 counterexample: the claim says `power` never fails, but the source
computes `a ** b`, and the host raises `ZeroDivisionError` when a zero base
is raised to a negative power; at the numeric input `(0, -1)` the operation
fails and returns no value. -/
theorem c5_power_never_fails_counterexample :
    Operations.power 0 (-1) =
      .error (.zeroDivisionError "0.0 cannot be raised to a negative power") ∧
    ∀ v : ℝ, Operations.power 0 (-1) ≠ .ok v := by
  have h : Operations.power 0 (-1) =
      .error (.zeroDivisionError "0.0 cannot be raised to a negative power") := by
    rw [Operations.power, Operations.pyPow, if_pos ⟨rfl, by norm_num⟩]
  exact ⟨h, fun v hv => by rw [h] at hv; exact Except.noConfusion hv⟩

/-- C5 amended: `power a b` returns a value for every pair of operands
except a zero base with a negative exponent, where the host raises a
zero-to-a-negative-power error (not a domain-violation `ValueError`). -/
theorem c5_power_never_fails_amended (a b : ℝ) (h : ¬ (a = 0 ∧ b < 0)) :
    Operations.power a b = .ok (a ^ b) :=
  Operations.power_ok a b h

/-- C5 amended witness: a concrete successful exponentiation. -/
theorem c5_power_never_fails_amended_witness :
    Operations.power 2 3 = .ok ((2 : ℝ) ^ (3 : ℝ)) :=
  c5_power_never_fails_amended 2 3 (by norm_num)

/-- C6: the four total operations compute exactly the arithmetic the spec
states: `a + b`, `a - b`, `a * b` and `a * b / 100` (the real-number model
idealises floating-point rounding; every real is finite). -/
theorem c6_basic_arithmetic (a b : ℝ) :
    Operations.add a b = a + b ∧
    Operations.subtract a b = a - b ∧
    Operations.multiply a b = a * b ∧
    Operations.percentage a b = a * b / 100 :=
  ⟨rfl, rfl, rfl, rfl⟩

/-- C7: addition and multiplication are commutative, and subtraction is
antisymmetric: `subtract a b = -(subtract b a)`. -/
theorem c7_algebraic_relations (a b : ℝ) :
    Operations.add a b = Operations.add b a ∧
    Operations.multiply a b = Operations.multiply b a ∧
    Operations.subtract a b = -Operations.subtract b a := by
  refine ⟨add_comm a b, mul_comm a b, ?_⟩
  rw [Operations.subtract, Operations.subtract, neg_sub]

/-- C8: on success every handler returns HTTP 200 (the `success`
constructor) carrying the computed result, the canonical operation name and
the echo of the operands supplied by the caller; for the three fallible
operations the hypothesis restricts to the inputs on which they succeed. -/
theorem c8_success_envelope (a b : ℝ) :
    Main.api_add a b = .success (a + b) "addition" [("a", a), ("b", b)] ∧
    Main.api_subtract a b =
      .success (a - b) "subtraction" [("a", a), ("b", b)] ∧
    Main.api_multiply a b =
      .success (a * b) "multiplication" [("a", a), ("b", b)] ∧
    Main.api_percentage a b =
      .success (a * b / 100) "percentage" [("a", a), ("b", b)] ∧
    (b ≠ 0 → Main.api_divide a b =
      .success (a / b) "division" [("a", a), ("b", b)]) ∧
    (¬ (a = 0 ∧ b < 0) → Main.api_power a b =
      .success (a ^ b) "power" [("a", a), ("b", b)]) ∧
    (0 ≤ a → Main.api_square_root a =
      .success (Real.sqrt a) "square_root" [("a", a)]) := by
  refine ⟨rfl, rfl, rfl, rfl, ?_, ?_, ?_⟩
  · intro h; rw [Main.api_divide, Operations.divide_ok a b h]; rfl
  · intro h; rw [Main.api_power, Operations.power_ok a b h]; rfl
  · intro h; rw [Main.api_square_root, Operations.square_root_ok a h]; rfl

/-- C8 witness: concrete success envelopes, including the end-to-end
example `add(2, 3) = 5`. -/
theorem c8_success_envelope_witness :
    Main.api_add 2 3 = .success (2 + 3) "addition" [("a", 2), ("b", 3)] ∧
    Main.api_divide 6 3 = .success ((6 : ℝ) / 3) "division" [("a", 6), ("b", 3)] ∧
    Main.api_power 9 0.5 =
      .success ((9 : ℝ) ^ (0.5 : ℝ)) "power" [("a", 9), ("b", 0.5)] ∧
    Main.api_square_root 4 = .success (Real.sqrt 4) "square_root" [("a", 4)] :=
  ⟨(c8_success_envelope 2 3).1,
   (c8_success_envelope 6 3).2.2.2.2.1 (by norm_num),
   (c8_success_envelope 9 0.5).2.2.2.2.2.1 (by rintro ⟨h, -⟩; norm_num at h),
   (c8_success_envelope 4 0).2.2.2.2.2.2 (by norm_num)⟩

/-- C9: the only failure `divide` produces is the domain `ValueError` (the
zero guard precedes the division, so the host's own division-by-zero error
never occurs), the only failure `square_root` produces is its domain
`ValueError`, and consequently the HTTP 500 branches of the two handlers
are unreachable: no numeric input gives status 500. -/
theorem c9_http500_unreachable (a b c : ℝ) :
    ((∃ v, Operations.divide a b = .ok v) ∨
      Operations.divide a b = .error (.valueError "Cannot divide by zero")) ∧
    ((∃ v, Operations.square_root c = .ok v) ∨
      Operations.square_root c =
        .error (.valueError "Cannot calculate square root of negative number")) ∧
    (Main.api_divide a b).status ≠ 500 ∧
    (Main.api_square_root c).status ≠ 500 := by
  have hdiv : (∃ v, Operations.divide a b = .ok v) ∨
      Operations.divide a b = .error (.valueError "Cannot divide by zero") := by
    rcases eq_or_ne b 0 with hb | hb
    · exact Or.inr (Operations.divide_zero a b hb)
    · exact Or.inl ⟨a / b, Operations.divide_ok a b hb⟩
  have hsq : (∃ v, Operations.square_root c = .ok v) ∨
      Operations.square_root c =
        .error (.valueError "Cannot calculate square root of negative number") := by
    rcases lt_or_le c 0 with hc | hc
    · exact Or.inr (Operations.square_root_neg c hc)
    · exact Or.inl ⟨Real.sqrt c, Operations.square_root_ok c hc⟩
  refine ⟨hdiv, hsq, ?_, ?_⟩
  · rcases hdiv with ⟨v, hv⟩ | hv <;>
      rw [Main.api_divide, hv] <;>
      norm_num [Main.runHandler, Main.domainCatch, Main.ApiResponse.status]
  · rcases hsq with ⟨v, hv⟩ | hv <;>
      rw [Main.api_square_root, hv] <;>
      norm_num [Main.runHandler, Main.domainCatch, Main.ApiResponse.status]

/-- C10: for nonnegative operands the square-root operation is exactly the
power operation at exponent 0.5 — both sides are the same `a ** 0.5`. -/
theorem c10_square_root_refines_power (a : ℝ) (h : 0 ≤ a) :
    Operations.square_root a = Operations.power a 0.5 := by
  rw [Operations.square_root, if_neg (not_lt.mpr h)]; rfl

/-- C10 witness: the two operations agree at the concrete input 9. -/
theorem c10_square_root_refines_power_witness :
    Operations.square_root 9 = Operations.power 9 0.5 :=
  c10_square_root_refines_power 9 (by norm_num)
